import Mathlib

/-!
Verification of the SEIR agent-based simulation core described in spec.md
against the repository's source (src/hello_starsim.ipynb).

The notebook contains only the `seir.__init__` sketch (default parameters,
parameter override, and the `add_states` column declarations); those parts are
embedded directly from the source below.  The stepping engine, population
state operations and random stream that the spec describes are not present
under src/, so they are modelled from the spec's words; every such definition
carries a doc comment starting with `Modelled from the spec:`.
-/

namespace StarsimSpec

/-! ## Part 1: facts embedded from src/hello_starsim.ipynb -/

/-- Kind of a per-agent state container as declared by `ss.BoolArr` /
`ss.FloatArr` in the notebook's `add_states` call. -/
inductive StateKind
  | boolArr
  | floatArr
deriving DecidableEq, Repr

/-- The `add_states(...)` call in `seir.__init__` (src/hello_starsim.ipynb):
`BoolArr('susceptible')`, `BoolArr('exposed')`, `BoolArr('infectious')`,
`BoolArr('recovered')`, `FloatArr('infectious_ti')`, `FloatArr('recovered_ti')`,
in source order. -/
def seirAddStates : List (String × StateKind) :=
  [("susceptible", .boolArr), ("exposed", .boolArr), ("infectious", .boolArr),
   ("recovered", .boolArr),
   ("infectious_ti", .floatArr), ("recovered_ti", .floatArr)]

/-- The container list that the spec's PopulationState description (and claim
C2) asserts: five boolean containers including `dead`, and two numeric
containers named `infectious_at` and `recovered_at`.  Written from the spec's
words, to be compared with `seirAddStates`, which is written from the source. -/
def specClaimedStates : List (String × StateKind) :=
  [("susceptible", .boolArr), ("exposed", .boolArr), ("infectious", .boolArr),
   ("recovered", .boolArr), ("dead", .boolArr),
   ("infectious_at", .floatArr), ("recovered_at", .floatArr)]

/-- A distribution-valued parameter as used in the notebook's `default_pars`
call: `ss.bernouli(p=...)` or `ss.expon(scale=...)`. -/
inductive ParDist
  | bernoulli (p : ℚ)
  | expon (scale : ℚ)
deriving DecidableEq, Repr

/-- The scale of an exponential parameter distribution (0 for a Bernoulli). -/
def ParDist.scaleOf : ParDist → ℚ
  | .bernoulli _ => 0
  | .expon s => s

/-- The probability of a Bernoulli parameter distribution (0 for an exponential). -/
def ParDist.probOf : ParDist → ℚ
  | .bernoulli p => p
  | .expon _ => 0

/-- The five model parameters set by `seir.__init__` via `default_pars` /
`update_pars` in src/hello_starsim.ipynb. -/
structure SeirPars where
  init_prev : ParDist
  beta : ℚ
  dur_exp : ParDist
  dur_inf : ParDist
  p_death : ParDist
deriving DecidableEq, Repr

/-- The `default_pars(...)` call in `seir.__init__`:
`init_prev = ss.bernouli(p=0.01)`, `beta = 0.1`, `dur_exp = ss.expon(scale=3)`,
`dur_inf = ss.expon(scale=5)`, `p_death = ss.bernouli(p=0.01)`. -/
def seirDefaultPars : SeirPars :=
  { init_prev := .bernoulli (1/100)
    beta := 1/10
    dur_exp := .expon 3
    dur_inf := .expon 5
    p_death := .bernoulli (1/100) }

/-- A caller-supplied parameter override, as accepted by `update_pars(pars,
**kwargs)`: each field is optionally overridden. -/
structure SeirParsUpdate where
  init_prev : Option ParDist := none
  beta : Option ℚ := none
  dur_exp : Option ParDist := none
  dur_inf : Option ParDist := none
  p_death : Option ParDist := none
deriving DecidableEq, Repr

/-- `update_pars`: caller-supplied values replace current ones; absent keys
keep the current value. -/
def updatePars (cur : SeirPars) (u : SeirParsUpdate) : SeirPars :=
  { init_prev := u.init_prev.getD cur.init_prev
    beta := u.beta.getD cur.beta
    dur_exp := u.dur_exp.getD cur.dur_exp
    dur_inf := u.dur_inf.getD cur.dur_inf
    p_death := u.p_death.getD cur.p_death }

/-- The parameter set held by a freshly constructed `seir` object:
`default_pars(...)` is applied first, then `update_pars(pars, **kwargs)`
overrides it with whatever the caller supplied. -/
def seirConstructPars (u : SeirParsUpdate) : SeirPars :=
  updatePars seirDefaultPars u

/-! ## Part 2: the simulation core, modelled from the spec

The spec's RandomStream, PopulationState, TransitionScheduler, ContactSampler
and EpidemicEngine are not implemented under src/ (the notebook stops at
`seir.__init__`), so they are modelled from the spec's words (spec.md sections
2-7). -/

/-- Modelled from the spec (section 7): the error taxonomy `InvalidParameter`,
`InvalidStateTransition`, `EngineNotInitialized`. -/
inductive SimError
  | invalidParameter
  | invalidStateTransition
  | engineNotInitialized
deriving DecidableEq, Repr

/-- The resolution of a unit-interval draw: a raw draw value `u < unitDen`
represents the uniform unit value `u / unitDen`. -/
def unitDen : ℕ := 4294967296

/-- Modelled from the spec (section 4.1): a deterministic, seedable source of
pseudo-random draws.  `vals` is the raw 32-bit value sequence and `idx` the
position of the next draw; a raw value `u` (reduced mod `unitDen`) represents
the uniform unit-interval value `u / unitDen`, so every draw is a
deterministic function of the seed and the call sequence. -/
structure RandomStream where
  vals : ℕ → ℕ
  idx : ℕ

/-- The raw value of the draw `k` positions ahead, reduced to `[0, unitDen)`. -/
def RandomStream.val (rs : RandomStream) (k : ℕ) : ℕ := rs.vals (rs.idx + k) % unitDen

/-- The raw value of the next draw. -/
def RandomStream.peek (rs : RandomStream) : ℕ := rs.val 0

/-- Consume one draw. -/
def RandomStream.advance (rs : RandomStream) : RandomStream := ⟨rs.vals, rs.idx + 1⟩

/-- Consume `k` draws. -/
def RandomStream.skip (rs : RandomStream) (k : ℕ) : RandomStream := ⟨rs.vals, rs.idx + k⟩

/-- Modelled from the spec (sections 2 and 4.1): seeding.  A linear
congruential generator step; `seedStream` turns a seed into the deterministic
value sequence reachable again by reseeding with the same value. -/
def lcgNext (s : ℕ) : ℕ := (1664525 * s + 1013904223) % 4294967296

/-- The deterministic stream obtained from a seed. -/
def seedStream (seed : ℕ) : RandomStream :=
  ⟨fun k => lcgNext^[k + 1] (seed % 4294967296), 0⟩

/-- Modelled from the spec (section 4.1): the Bernoulli(p) decision for a raw
unit draw `u`: true exactly when `u / unitDen < p`, written by
cross-multiplication so that the comparison against the rational probability
is exact. -/
def bernVal (p : ℚ) (u : ℕ) : Bool :=
  decide ((u : ℤ) * (p.den : ℤ) < p.num * (unitDen : ℤ))

/-- Modelled from the spec (sections 3 and 4.1): the duration drawn for a raw
unit draw `u`, with given mean scale: the monotone inverse-CDF surrogate
`scale * u / (unitDen - u)` rounded down to whole clock units (the spec's
SimulationClock is integer-valued and advances one unit per step; scheduled
times are kept at that resolution).  No engine-level claim depends on the
distribution's shape beyond determinism; the true exponential density is
modelled separately for the statistical claim (see `expPdf`, `expMean`). -/
def durVal (scale : ℚ) (u : ℕ) : ℤ :=
  Int.ediv (scale.num * (u : ℤ)) ((scale.den : ℤ) * ((unitDen : ℤ) - (u : ℤ)))

/-- Bernoulli draw on the stream's next value. -/
def bernCore (p : ℚ) (rs : RandomStream) : Bool × RandomStream :=
  (bernVal p rs.peek, rs.advance)

/-- Duration draw on the stream's next value. -/
def expCore (scale : ℚ) (rs : RandomStream) : ℤ × RandomStream :=
  (durVal scale rs.peek, rs.advance)

/-- Bernoulli(p) draw on the value `k` positions ahead. -/
def bernAt (p : ℚ) (rs : RandomStream) (k : ℕ) : Bool := bernVal p (rs.val k)

/-- Duration draw on the value `k` positions ahead. -/
def expAt (scale : ℚ) (rs : RandomStream) (k : ℕ) : ℤ := durVal scale (rs.val k)

/-- Modelled from the spec (section 4.1): `drawBernoulli(p)` fails with
InvalidParameter if p is outside [0,1]. -/
def drawBernoulli (p : ℚ) (rs : RandomStream) : Except SimError (Bool × RandomStream) :=
  if 0 ≤ p ∧ p ≤ 1 then .ok (bernCore p rs) else .error .invalidParameter

/-- Modelled from the spec (section 4.1): `drawExponential(scale)` fails with
InvalidParameter if scale ≤ 0. -/
def drawExponential (scale : ℚ) (rs : RandomStream) : Except SimError (ℤ × RandomStream) :=
  if 0 < scale then .ok (expCore scale rs) else .error .invalidParameter

/-- Modelled from the spec (section 3): the immutable DiseaseParameters
configuration (initial prevalence, transmission probability per contact, the
two duration-distribution scales, death probability). -/
structure DiseaseParameters where
  initPrevalence : ℚ
  transmissionProbability : ℚ
  incubationScale : ℚ
  infectiousScale : ℚ
  deathProbability : ℚ
deriving DecidableEq, Repr

/-- Modelled from the spec (section 4.3): `sampleIncubation` delegates to the
stream's exponential draw with the incubation scale from DiseaseParameters. -/
def sampleIncubation (p : DiseaseParameters) (rs : RandomStream) : ℤ × RandomStream :=
  expCore p.incubationScale rs

/-- Modelled from the spec (section 4.3): `sampleInfectiousDuration` delegates
to the stream's exponential draw with the infectious scale. -/
def sampleInfectiousDuration (p : DiseaseParameters) (rs : RandomStream) : ℤ × RandomStream :=
  expCore p.infectiousScale rs

/-- Modelled from the spec (section 3): PopulationState owns five parallel
boolean containers and two parallel numeric containers of scheduled transition
times, all indexed identically by agent index; the population size `n` is part
of the type, so the length is fixed for the simulation's duration. -/
structure PopulationState (n : ℕ) where
  susceptible : Fin n → Bool
  exposed : Fin n → Bool
  infectious : Fin n → Bool
  recovered : Fin n → Bool
  dead : Fin n → Bool
  infectious_at : Fin n → ℤ
  recovered_at : Fin n → ℤ

/-- One agent's full row of columnar state. -/
structure AgentRow where
  sus : Bool
  expd : Bool
  infd : Bool
  recd : Bool
  dd : Bool
  iat : ℤ
  rat : ℤ
deriving DecidableEq, Repr

/-- The row of agent `j`. -/
def PopulationState.row {n : ℕ} (pop : PopulationState n) (j : Fin n) : AgentRow :=
  ⟨pop.susceptible j, pop.exposed j, pop.infectious j, pop.recovered j, pop.dead j,
   pop.infectious_at j, pop.recovered_at j⟩

/-- Modelled from the spec (sections 4.2 and 5): population bootstrap at time
0.  Every agent is susceptible except a Bernoulli(initPrevalence)-selected
subset set directly to infectious (bypassing the exposed stage) with
`recovered_at` scheduled from the infectious-duration distribution.  Per the
spec's reproducible per-agent sub-stream provision (section 5), agent `j`
deterministically owns the stream positions `2*j` (selection draw) and
`2*j+1` (duration draw); the sentinel value of an unscheduled timer is 0. -/
def initCore (p : DiseaseParameters) (n : ℕ) (rng : RandomStream) :
    PopulationState n × RandomStream :=
  ({ susceptible := fun j => !bernAt p.initPrevalence rng (2 * j.val)
     exposed := fun _ => false
     infectious := fun j => bernAt p.initPrevalence rng (2 * j.val)
     recovered := fun _ => false
     dead := fun _ => false
     infectious_at := fun _ => 0
     recovered_at := fun j =>
       if bernAt p.initPrevalence rng (2 * j.val) then
         0 + expAt p.infectiousScale rng (2 * j.val + 1)
       else 0 },
   rng.skip (2 * n))

/-- Modelled from the spec (section 4.2): `initialize(size, initPrevalence,
randomStream)` fails with InvalidParameter if size ≤ 0 (and, as the per-agent
Bernoulli and exponential draws would, if the prevalence probability or the
infectious scale is malformed); otherwise it builds the bootstrap population. -/
def initializePop (p : DiseaseParameters) (size : ℤ) (rng : RandomStream) :
    Except SimError (PopulationState size.toNat × RandomStream) :=
  if size ≤ 0 then .error .invalidParameter
  else if 0 ≤ p.initPrevalence ∧ p.initPrevalence ≤ 1 ∧ 0 < p.infectiousScale then
    .ok (initCore p size.toNat rng)
  else .error .invalidParameter

/-- Modelled from the spec (section 4.2): the state change of a successful
exposure: agent `i` flips from susceptible to exposed and
`infectious_at[i] = time + sampleIncubation()` is stored. -/
def markExposedCore {n : ℕ} (p : DiseaseParameters) (i : Fin n) (now : ℤ)
    (pop : PopulationState n) (rng : RandomStream) : PopulationState n × RandomStream :=
  let dr := sampleIncubation p rng
  ({ pop with
      susceptible := Function.update pop.susceptible i false
      exposed := Function.update pop.exposed i true
      infectious_at := Function.update pop.infectious_at i (now + dr.1) },
   dr.2)

/-- Modelled from the spec (sections 4.2 and 7): `markExposed(i, time,
scheduler)` fails with InvalidStateTransition if agent `i` is not currently
susceptible (guarding against double exposure); on failure no state is
produced, so the caller's population state is unchanged. -/
def markExposed {n : ℕ} (p : DiseaseParameters) (i : Fin n) (now : ℤ)
    (pop : PopulationState n) (rng : RandomStream) :
    Except SimError (PopulationState n × RandomStream) :=
  if pop.susceptible i = true then .ok (markExposedCore p i now pop rng)
  else .error .invalidStateTransition

/-- Agent `j` has a due exposed-to-infectious transition: it is exposed and
`infectious_at[j] ≤ now`. -/
def dueEI {n : ℕ} (pop : PopulationState n) (now : ℤ) (j : Fin n) : Bool :=
  pop.exposed j && decide (pop.infectious_at j ≤ now)

/-- Agent `j` has a due infectious-to-outcome transition: it is infectious and
`recovered_at[j] ≤ now`. -/
def dueIR {n : ℕ} (pop : PopulationState n) (now : ℤ) (j : Fin n) : Bool :=
  pop.infectious j && decide (pop.recovered_at j ≤ now)

/-- Modelled from the spec (section 4.2): first half of
`advanceDueTransitions`.  Every exposed agent whose `infectious_at` is due
transitions to infectious and gets `recovered_at` scheduled from the
infectious-duration distribution (agent `j` owns stream position `j`). -/
def phaseEI {n : ℕ} (p : DiseaseParameters) (now : ℤ) (pop : PopulationState n)
    (rng : RandomStream) : PopulationState n × RandomStream :=
  ({ pop with
      exposed := fun j => if dueEI pop now j then false else pop.exposed j
      infectious := fun j => if dueEI pop now j then true else pop.infectious j
      recovered_at := fun j =>
        if dueEI pop now j then now + expAt p.infectiousScale rng j.val
        else pop.recovered_at j },
   rng.skip n)

/-- Modelled from the spec (section 4.2): second half of
`advanceDueTransitions`.  Every agent that was infectious with `recovered_at`
due in the snapshot `snap` taken at the start of the step transitions to
recovered or dead per a Bernoulli(deathProbability) draw.  Reading eligibility
from the snapshot realises the deterministic one-hop-per-step policy: an agent
that only became infectious in the first half is not examined again within the
same step even if its freshly scheduled timer is already due. -/
def phaseIR {n : ℕ} (p : DiseaseParameters) (now : ℤ) (snap pop : PopulationState n)
    (rng : RandomStream) : PopulationState n × RandomStream :=
  ({ pop with
      infectious := fun j => if dueIR snap now j then false else pop.infectious j
      recovered := fun j =>
        if dueIR snap now j && !bernAt p.deathProbability rng j.val then true
        else pop.recovered j
      dead := fun j =>
        if dueIR snap now j && bernAt p.deathProbability rng j.val then true
        else pop.dead j },
   rng.skip n)

/-- Modelled from the spec (section 4.2): `advanceDueTransitions(currentTime,
scheduler)`: exposed-to-infectious transitions are resolved before
infectious-to-recovered/dead transitions for the same step. -/
def advanceDueTransitions {n : ℕ} (p : DiseaseParameters) (now : ℤ)
    (pop : PopulationState n) (rng : RandomStream) : PopulationState n × RandomStream :=
  let a := phaseEI p now pop rng
  phaseIR p now pop a.1 a.2

/-- Modelled from the spec (section 4.5): one contact pair.  Susceptibility of
the first agent is checked immediately before the exposure attempt (not on a
snapshot), then a Bernoulli(transmissionProbability) draw decides exposure; a
pair whose first agent is no longer susceptible is a no-op, not an error. -/
def exposeStep {n : ℕ} (p : DiseaseParameters) (now : ℤ)
    (st : PopulationState n × RandomStream) (pr : Fin n × Fin n) :
    PopulationState n × RandomStream :=
  if st.1.susceptible pr.1 = true then
    let b := bernCore p.transmissionProbability st.2
    if b.1 then markExposedCore p pr.1 now st.1 b.2 else (st.1, b.2)
  else st

/-- Modelled from the spec (section 4.5): the exposure pass over one step's
contact batch, in batch order (first successful draw wins). -/
def applyContacts {n : ℕ} (p : DiseaseParameters) (now : ℤ)
    (pairs : List (Fin n × Fin n)) (pop : PopulationState n) (rng : RandomStream) :
    PopulationState n × RandomStream :=
  pairs.foldl (exposeStep p now) (pop, rng)

/-- Modelled from the spec (section 4.4): the ContactSampler interface:
`contactsAt(time)` yields a finite batch of (susceptibleIndex,
infectiousIndex) pairs. -/
def ContactSampler (n : ℕ) : Type := ℤ → List (Fin n × Fin n)

/-- Modelled from the spec (section 6): per-step population counts. -/
structure StepResult where
  S : ℕ
  E : ℕ
  I : ℕ
  R : ℕ
  D : ℕ
deriving DecidableEq, Repr

/-- Number of agents for which a boolean column is set. -/
def countTrue {n : ℕ} (f : Fin n → Bool) : ℕ :=
  (Finset.univ.filter fun j => f j = true).card

/-- The {S,E,I,R,D} counts of a population. -/
def PopulationState.counts {n : ℕ} (pop : PopulationState n) : StepResult :=
  ⟨countTrue pop.susceptible, countTrue pop.exposed, countTrue pop.infectious,
   countTrue pop.recovered, countTrue pop.dead⟩

/-- Modelled from the spec (sections 3 and 4.5): the EpidemicEngine owns the
immutable DiseaseParameters, the SimulationClock and the PopulationState; in
this model an `Engine` value only exists once initialization has completed, so
`step`/`run` cannot be reached uninitialized. -/
structure Engine (n : ℕ) where
  pars : DiseaseParameters
  clock : ℤ
  pop : PopulationState n
  rng : RandomStream

/-- Modelled from the spec (section 4.5): `step()`: (a) apply due transitions
at the current time, (b) apply new exposures from the contact batch, (c)
advance the clock by one unit; the returned StepResult is the population count
after the completed step. -/
def Engine.step {n : ℕ} (cs : ContactSampler n) (e : Engine n) : Engine n × StepResult :=
  let a := advanceDueTransitions e.pars e.clock e.pop e.rng
  let c := applyContacts e.pars e.clock (cs e.clock) a.1 a.2
  ({ e with clock := e.clock + 1, pop := c.1, rng := c.2 }, c.1.counts)

/-- Modelled from the spec (section 6): engine construction from parameters, a
population size and a random stream; the clock starts at 0. -/
def Engine.mk0 (p : DiseaseParameters) (n : ℕ) (rng : RandomStream) : Engine n :=
  let ir := initCore p n rng
  ⟨p, 0, ir.1, ir.2⟩

/-- Modelled from the spec (section 6): engine construction from a seed. -/
def Engine.mkSeeded (p : DiseaseParameters) (n : ℕ) (seed : ℕ) : Engine n :=
  Engine.mk0 p n (seedStream seed)

/-- The engine after `k` completed steps. -/
def Engine.iter {n : ℕ} (cs : ContactSampler n) : ℕ → Engine n → Engine n
  | 0, e => e
  | k + 1, e => Engine.iter cs k (Engine.step cs e).1

/-- Modelled from the spec (section 4.5): `run(numSteps)` invokes `step()`
exactly `numSteps` times and returns the ordered per-step count sequence;
termination is by step count, not epidemic extinction. -/
def Engine.runCounts {n : ℕ} (cs : ContactSampler n) : ℕ → Engine n → List StepResult
  | 0, _ => []
  | k + 1, e => (Engine.step cs e).2 :: Engine.runCounts cs k (Engine.step cs e).1

/-- The population component of one completed step at time `now` with contact
batch `pairs`: due transitions first, then exposures. -/
def stepPop {n : ℕ} (p : DiseaseParameters) (now : ℤ) (pairs : List (Fin n × Fin n))
    (pop : PopulationState n) (rng : RandomStream) : PopulationState n :=
  (applyContacts p now pairs (advanceDueTransitions p now pop rng).1
    (advanceDueTransitions p now pop rng).2).1

/-- Exactly one of the five compartment flags of agent `j` is set. -/
def exactlyOneAt {n : ℕ} (pop : PopulationState n) (j : Fin n) : Prop :=
  (pop.susceptible j).toNat + (pop.exposed j).toNat + (pop.infectious j).toNat +
    (pop.recovered j).toNat + (pop.dead j).toNat = 1

instance {n : ℕ} (pop : PopulationState n) (j : Fin n) : Decidable (exactlyOneAt pop j) := by
  unfold exactlyOneAt; infer_instance

/-- The spec's PopulationState invariant (section 3): mutual exclusivity and
totality of the five compartment flags, for every agent. -/
def popInv {n : ℕ} (pop : PopulationState n) : Prop := ∀ j, exactlyOneAt pop j

instance {n : ℕ} (pop : PopulationState n) : Decidable (popInv pop) := by
  unfold popInv; infer_instance

/-- The five compartments of the per-agent state machine (spec section 4.5). -/
inductive Compartment
  | S
  | E
  | I
  | R
  | D
deriving DecidableEq, Repr

/-- The compartment of agent `j`, decoded from the flags in priority order
(unambiguous whenever `exactlyOneAt` holds). -/
def PopulationState.comp {n : ℕ} (pop : PopulationState n) (j : Fin n) : Compartment :=
  if pop.susceptible j then .S
  else if pop.exposed j then .E
  else if pop.infectious j then .I
  else if pop.recovered j then .R
  else .D

/-- The one-hop-per-step transition relation of the spec's state machine:
within one step an agent either stays put or moves along exactly one edge of
SUSCEPTIBLE → EXPOSED → INFECTIOUS → RECOVERED | DEAD. -/
def oneHop (a b : Compartment) : Prop :=
  a = b ∨ (a = .S ∧ b = .E) ∨ (a = .E ∧ b = .I) ∨ (a = .I ∧ b = .R) ∨ (a = .I ∧ b = .D)

instance (a b : Compartment) : Decidable (oneHop a b) := by
  unfold oneHop; infer_instance

/-- Modelled from the spec (section 4.1): the density of the exponential
distribution with rate `r` (mean `1/r`), for the statistical claim about mean
durations. -/
noncomputable def expPdf (r x : ℝ) : ℝ := if 0 ≤ x then r * Real.exp (-(r * x)) else 0

/-- Modelled from the spec (sections 4.1 and 8): the mean of the exponential
distribution with mean scale `s`, i.e. the expectation of the identity under
the density with rate `1/s`. -/
noncomputable def expMean (s : ℝ) : ℝ := ∫ x in Set.Ioi (0 : ℝ), x * expPdf s⁻¹ x

/-- The DiseaseParameters matching the notebook's `default_pars`: initial
prevalence 0.01, transmission probability 0.1, incubation scale 3, infectious
scale 5, death probability 0.01. -/
def defaultParameters : DiseaseParameters := ⟨mkRat 1 100, mkRat 1 10, 3, 5, mkRat 1 100⟩

/-- The notebook defaults with the transmission probability set to 0 (the
zero-transmission scenario of the spec). -/
def probePars : DiseaseParameters := ⟨mkRat 1 100, 0, 3, 5, mkRat 1 100⟩

/-- A concrete all-zero random stream. -/
def probeStream : RandomStream := ⟨fun _ => 0, 0⟩

/-- A concrete high-valued random stream (every unit draw is 1/2). -/
def probeStreamHigh : RandomStream := ⟨fun _ => 2147483648, 0⟩

/-- A concrete two-agent contact sampler. -/
def probeCS2 : ContactSampler 2 := fun _ => [(0, 1)]

/-- A concrete two-agent population: agent 0 exposed with its transition due
at time 0, agent 1 recovered. -/
def probePopE : PopulationState 2 :=
  ⟨fun _ => false, fun j => decide (j.val = 0), fun _ => false,
   fun j => decide (j.val = 1), fun _ => false, fun _ => 0, fun _ => 0⟩

/-- A concrete engine over `probePopE` at clock 0. -/
def probeEngineE : Engine 2 := ⟨defaultParameters, 0, probePopE, probeStream⟩

/-! ## Part 3: lemmas about the modelled core -/

section AdvanceLemmas

variable {n : ℕ} (p : DiseaseParameters) (now : ℤ) (pop : PopulationState n)
variable (rng : RandomStream) (j : Fin n)

lemma advance_sus :
    (advanceDueTransitions p now pop rng).1.susceptible j = pop.susceptible j := rfl

lemma advance_iat :
    (advanceDueTransitions p now pop rng).1.infectious_at j = pop.infectious_at j := rfl

lemma advance_exp :
    (advanceDueTransitions p now pop rng).1.exposed j =
      if dueEI pop now j then false else pop.exposed j := rfl

lemma advance_inf :
    (advanceDueTransitions p now pop rng).1.infectious j =
      if dueIR pop now j then false
      else if dueEI pop now j then true else pop.infectious j := rfl

lemma advance_rat :
    (advanceDueTransitions p now pop rng).1.recovered_at j =
      if dueEI pop now j then now + expAt p.infectiousScale rng j.val
      else pop.recovered_at j := rfl

lemma advance_rec :
    (advanceDueTransitions p now pop rng).1.recovered j =
      if dueIR pop now j && !bernAt p.deathProbability (rng.skip n) j.val then true
      else pop.recovered j := rfl

lemma advance_dead :
    (advanceDueTransitions p now pop rng).1.dead j =
      if dueIR pop now j && bernAt p.deathProbability (rng.skip n) j.val then true
      else pop.dead j := rfl

end AdvanceLemmas

section ContactLemmas

variable {n : ℕ} (p : DiseaseParameters) (now : ℤ)

lemma exposeStep_inf (st : PopulationState n × RandomStream) (pr : Fin n × Fin n)
    (j : Fin n) : (exposeStep p now st pr).1.infectious j = st.1.infectious j := by
  unfold exposeStep
  split
  · dsimp only
    split <;> rfl
  · rfl

lemma exposeStep_rec (st : PopulationState n × RandomStream) (pr : Fin n × Fin n)
    (j : Fin n) : (exposeStep p now st pr).1.recovered j = st.1.recovered j := by
  unfold exposeStep
  split
  · dsimp only
    split <;> rfl
  · rfl

lemma exposeStep_dead (st : PopulationState n × RandomStream) (pr : Fin n × Fin n)
    (j : Fin n) : (exposeStep p now st pr).1.dead j = st.1.dead j := by
  unfold exposeStep
  split
  · dsimp only
    split <;> rfl
  · rfl

lemma exposeStep_rat (st : PopulationState n × RandomStream) (pr : Fin n × Fin n)
    (j : Fin n) : (exposeStep p now st pr).1.recovered_at j = st.1.recovered_at j := by
  unfold exposeStep
  split
  · dsimp only
    split <;> rfl
  · rfl

lemma applyContacts_cons (pr : Fin n × Fin n) (t : List (Fin n × Fin n))
    (pop : PopulationState n) (rng : RandomStream) :
    applyContacts p now (pr :: t) pop rng =
      applyContacts p now t (exposeStep p now (pop, rng) pr).1
        (exposeStep p now (pop, rng) pr).2 := rfl

lemma contacts_inf (pairs : List (Fin n × Fin n)) (pop : PopulationState n)
    (rng : RandomStream) (j : Fin n) :
    (applyContacts p now pairs pop rng).1.infectious j = pop.infectious j := by
  induction pairs generalizing pop rng with
  | nil => rfl
  | cons pr t ih =>
      rw [applyContacts_cons]
      rw [ih]
      exact exposeStep_inf p now (pop, rng) pr j

lemma contacts_rec (pairs : List (Fin n × Fin n)) (pop : PopulationState n)
    (rng : RandomStream) (j : Fin n) :
    (applyContacts p now pairs pop rng).1.recovered j = pop.recovered j := by
  induction pairs generalizing pop rng with
  | nil => rfl
  | cons pr t ih =>
      rw [applyContacts_cons, ih]
      exact exposeStep_rec p now (pop, rng) pr j

lemma contacts_dead (pairs : List (Fin n × Fin n)) (pop : PopulationState n)
    (rng : RandomStream) (j : Fin n) :
    (applyContacts p now pairs pop rng).1.dead j = pop.dead j := by
  induction pairs generalizing pop rng with
  | nil => rfl
  | cons pr t ih =>
      rw [applyContacts_cons, ih]
      exact exposeStep_dead p now (pop, rng) pr j

lemma contacts_rat (pairs : List (Fin n × Fin n)) (pop : PopulationState n)
    (rng : RandomStream) (j : Fin n) :
    (applyContacts p now pairs pop rng).1.recovered_at j = pop.recovered_at j := by
  induction pairs generalizing pop rng with
  | nil => rfl
  | cons pr t ih =>
      rw [applyContacts_cons, ih]
      exact exposeStep_rat p now (pop, rng) pr j

lemma exposeStep_cases (st : PopulationState n × RandomStream) (pr : Fin n × Fin n)
    (j : Fin n) :
    ((exposeStep p now st pr).1.susceptible j = st.1.susceptible j ∧
      (exposeStep p now st pr).1.exposed j = st.1.exposed j ∧
      (exposeStep p now st pr).1.infectious_at j = st.1.infectious_at j) ∨
    (st.1.susceptible j = true ∧ (exposeStep p now st pr).1.susceptible j = false ∧
      (exposeStep p now st pr).1.exposed j = true) := by
  unfold exposeStep
  split
  case isTrue hsus =>
    dsimp only
    split
    case isTrue hb =>
      by_cases hj : pr.1 = j
      · subst hj
        right
        refine ⟨hsus, ?_, ?_⟩
        · simp [markExposedCore]
        · simp [markExposedCore]
      · left
        refine ⟨?_, ?_, ?_⟩ <;>
          simp [markExposedCore, Function.update_noteq (fun h => hj h.symm)]
    case isFalse => left; exact ⟨rfl, rfl, rfl⟩
  case isFalse => left; exact ⟨rfl, rfl, rfl⟩

lemma contacts_sus_mono (pairs : List (Fin n × Fin n)) (pop : PopulationState n)
    (rng : RandomStream) (j : Fin n) (h : pop.susceptible j = false) :
    (applyContacts p now pairs pop rng).1.susceptible j = false := by
  induction pairs generalizing pop rng with
  | nil => exact h
  | cons pr t ih =>
      rw [applyContacts_cons]
      rcases exposeStep_cases p now (pop, rng) pr j with ⟨e1, _, _⟩ | ⟨hw, _, _⟩
      · exact ih _ _ (by rw [e1]; exact h)
      · rw [h] at hw; cases hw

lemma contacts_exp_mono (pairs : List (Fin n × Fin n)) (pop : PopulationState n)
    (rng : RandomStream) (j : Fin n) (h : pop.exposed j = true) :
    (applyContacts p now pairs pop rng).1.exposed j = true := by
  induction pairs generalizing pop rng with
  | nil => exact h
  | cons pr t ih =>
      rw [applyContacts_cons]
      rcases exposeStep_cases p now (pop, rng) pr j with ⟨_, e2, _⟩ | ⟨_, _, e3⟩
      · exact ih _ _ (by rw [e2]; exact h)
      · exact ih _ _ e3

lemma contacts_sus_false (pairs : List (Fin n × Fin n)) (pop : PopulationState n)
    (rng : RandomStream) (j : Fin n) (h : pop.susceptible j = false) :
    (applyContacts p now pairs pop rng).1.susceptible j = false ∧
      (applyContacts p now pairs pop rng).1.exposed j = pop.exposed j ∧
      (applyContacts p now pairs pop rng).1.infectious_at j = pop.infectious_at j := by
  induction pairs generalizing pop rng with
  | nil => exact ⟨h, rfl, rfl⟩
  | cons pr t ih =>
      rw [applyContacts_cons]
      rcases exposeStep_cases p now (pop, rng) pr j with ⟨e1, e2, e3⟩ | ⟨hw, _, _⟩
      · obtain ⟨c1, c2, c3⟩ := ih _ _ (by rw [e1]; exact h)
        exact ⟨c1, by rw [c2, e2], by rw [c3, e3]⟩
      · rw [h] at hw; cases hw

lemma contacts_sus_true (pairs : List (Fin n × Fin n)) (pop : PopulationState n)
    (rng : RandomStream) (j : Fin n)
    (h : (applyContacts p now pairs pop rng).1.susceptible j = true) :
    pop.susceptible j = true ∧
      (applyContacts p now pairs pop rng).1.exposed j = pop.exposed j ∧
      (applyContacts p now pairs pop rng).1.infectious_at j = pop.infectious_at j := by
  induction pairs generalizing pop rng with
  | nil => exact ⟨h, rfl, rfl⟩
  | cons pr t ih =>
      rw [applyContacts_cons] at h ⊢
      rcases exposeStep_cases p now (pop, rng) pr j with ⟨e1, e2, e3⟩ | ⟨hw, hf, _⟩
      · obtain ⟨c1, c2, c3⟩ := ih _ _ h
        exact ⟨by rw [← e1]; exact c1, by rw [c2, e2], by rw [c3, e3]⟩
      · have := contacts_sus_mono p now t (exposeStep p now (pop, rng) pr).1
          (exposeStep p now (pop, rng) pr).2 j hf
        rw [this] at h; cases h

lemma contacts_expose (pairs : List (Fin n × Fin n)) (pop : PopulationState n)
    (rng : RandomStream) (j : Fin n) (h : pop.susceptible j = true)
    (hf : (applyContacts p now pairs pop rng).1.susceptible j = false) :
    (applyContacts p now pairs pop rng).1.exposed j = true := by
  induction pairs generalizing pop rng with
  | nil =>
      have hx : pop.susceptible j = false := hf
      rw [h] at hx; cases hx
  | cons pr t ih =>
      rw [applyContacts_cons] at hf ⊢
      rcases exposeStep_cases p now (pop, rng) pr j with ⟨e1, _, _⟩ | ⟨_, _, e3⟩
      · exact ih _ _ (by rw [e1]; exact h) hf
      · exact contacts_exp_mono p now t _ _ j e3

end ContactLemmas

section StepLemmas

variable {n : ℕ} (p : DiseaseParameters) (now : ℤ) (pairs : List (Fin n × Fin n))
variable (pop : PopulationState n) (rng : RandomStream) (j : Fin n)

lemma dueEI_of_not_exposed (h : pop.exposed j = false) : dueEI pop now j = false := by
  simp [dueEI, h]

lemma dueIR_of_not_infectious (h : pop.infectious j = false) : dueIR pop now j = false := by
  simp [dueIR, h]

/-- An agent that is neither susceptible nor due for a transition keeps its
entire row across one step. -/
lemma stepPop_row_fixed (hs : pop.susceptible j = false) (hE : dueEI pop now j = false)
    (hI : dueIR pop now j = false) :
    (stepPop p now pairs pop rng).row j = pop.row j := by
  have hs1 : (advanceDueTransitions p now pop rng).1.susceptible j = false := by
    rw [advance_sus]; exact hs
  obtain ⟨c1, c2, c3⟩ := contacts_sus_false p now pairs _ _ j hs1
  unfold stepPop PopulationState.row
  rw [c1, c2, c3, contacts_inf, contacts_rec, contacts_dead, contacts_rat,
    advance_exp, advance_inf, advance_rec, advance_dead, advance_rat, advance_iat,
    hs, hE, hI]
  simp

/-- An exposed agent whose `infectious_at` is due becomes infectious (and only
infectious) within the step, with `recovered_at` freshly scheduled. -/
lemma stepPop_EI (hE : dueEI pop now j = true) (hs : pop.susceptible j = false)
    (hi : pop.infectious j = false) :
    (stepPop p now pairs pop rng).susceptible j = false ∧
      (stepPop p now pairs pop rng).exposed j = false ∧
      (stepPop p now pairs pop rng).infectious j = true ∧
      (stepPop p now pairs pop rng).recovered j = pop.recovered j ∧
      (stepPop p now pairs pop rng).dead j = pop.dead j := by
  have hI : dueIR pop now j = false := dueIR_of_not_infectious now pop j hi
  have hs1 : (advanceDueTransitions p now pop rng).1.susceptible j = false := by
    rw [advance_sus]; exact hs
  obtain ⟨c1, c2, c3⟩ := contacts_sus_false p now pairs _ _ j hs1
  unfold stepPop
  rw [c1, c2, contacts_inf, contacts_rec, contacts_dead,
    advance_exp, advance_inf, advance_rec, advance_dead, hE, hI]
  simp

/-- An infectious agent whose `recovered_at` is due leaves the infectious
compartment for recovered or dead, per the death draw. -/
lemma stepPop_IR (hI : dueIR pop now j = true) (hs : pop.susceptible j = false)
    (he : pop.exposed j = false) :
    (stepPop p now pairs pop rng).susceptible j = false ∧
      (stepPop p now pairs pop rng).exposed j = false ∧
      (stepPop p now pairs pop rng).infectious j = false ∧
      (stepPop p now pairs pop rng).recovered j =
        (if bernAt p.deathProbability (rng.skip n) j.val then pop.recovered j else true) ∧
      (stepPop p now pairs pop rng).dead j =
        (if bernAt p.deathProbability (rng.skip n) j.val then true else pop.dead j) := by
  have hE : dueEI pop now j = false := dueEI_of_not_exposed now pop j he
  have hs1 : (advanceDueTransitions p now pop rng).1.susceptible j = false := by
    rw [advance_sus]; exact hs
  obtain ⟨c1, c2, c3⟩ := contacts_sus_false p now pairs _ _ j hs1
  unfold stepPop
  rw [c1, c2, contacts_inf, contacts_rec, contacts_dead,
    advance_exp, advance_inf, advance_rec, advance_dead, hE, hI]
  refine ⟨rfl, by simp [he], by simp, ?_, ?_⟩ <;>
    cases bernAt p.deathProbability (rng.skip n) j.val <;> simp

/-- A susceptible agent either keeps its whole row or is exposed by a contact
(first successful draw wins), leaving every other flag untouched. -/
lemma stepPop_S (hs : pop.susceptible j = true) (he : pop.exposed j = false)
    (hi : pop.infectious j = false) :
    (stepPop p now pairs pop rng).row j = pop.row j ∨
    ((stepPop p now pairs pop rng).susceptible j = false ∧
      (stepPop p now pairs pop rng).exposed j = true ∧
      (stepPop p now pairs pop rng).infectious j = pop.infectious j ∧
      (stepPop p now pairs pop rng).recovered j = pop.recovered j ∧
      (stepPop p now pairs pop rng).dead j = pop.dead j ∧
      (stepPop p now pairs pop rng).recovered_at j = pop.recovered_at j) := by
  have hE : dueEI pop now j = false := dueEI_of_not_exposed now pop j he
  have hI : dueIR pop now j = false := dueIR_of_not_infectious now pop j hi
  have hs1 : (advanceDueTransitions p now pop rng).1.susceptible j = true := by
    rw [advance_sus]; exact hs
  by_cases hf : (stepPop p now pairs pop rng).susceptible j = true
  · left
    obtain ⟨c1, c2, c3⟩ := contacts_sus_true p now pairs _ _ j hf
    unfold stepPop PopulationState.row at *
    rw [c2, c3, contacts_inf, contacts_rec, contacts_dead, contacts_rat,
      advance_exp, advance_inf, advance_rec, advance_dead, advance_rat, advance_iat,
      hE, hI, hf]
    simp [hs]
  · right
    rw [Bool.not_eq_true] at hf
    have hexp : (stepPop p now pairs pop rng).exposed j = true := by
      unfold stepPop at hf ⊢
      exact contacts_expose p now pairs _ _ j hs1 hf
    refine ⟨hf, hexp, ?_, ?_, ?_, ?_⟩
    · unfold stepPop
      rw [contacts_inf, advance_inf, hE, hI]
      simp [hi]
    · unfold stepPop
      rw [contacts_rec, advance_rec, hI]
      simp
    · unfold stepPop
      rw [contacts_dead, advance_dead, hI]
      simp
    · unfold stepPop
      rw [contacts_rat, advance_rat, hE]
      simp

end StepLemmas

section InvariantLemmas

variable {n : ℕ}

lemma inv_cases (pop : PopulationState n) (j : Fin n) (h : exactlyOneAt pop j) :
    (pop.susceptible j = true ∧ pop.exposed j = false ∧ pop.infectious j = false ∧
      pop.recovered j = false ∧ pop.dead j = false) ∨
    (pop.susceptible j = false ∧ pop.exposed j = true ∧ pop.infectious j = false ∧
      pop.recovered j = false ∧ pop.dead j = false) ∨
    (pop.susceptible j = false ∧ pop.exposed j = false ∧ pop.infectious j = true ∧
      pop.recovered j = false ∧ pop.dead j = false) ∨
    (pop.susceptible j = false ∧ pop.exposed j = false ∧ pop.infectious j = false ∧
      pop.recovered j = true ∧ pop.dead j = false) ∨
    (pop.susceptible j = false ∧ pop.exposed j = false ∧ pop.infectious j = false ∧
      pop.recovered j = false ∧ pop.dead j = true) := by
  unfold exactlyOneAt at h
  revert h
  cases pop.susceptible j <;> cases pop.exposed j <;> cases pop.infectious j <;>
    cases pop.recovered j <;> cases pop.dead j <;> decide

lemma row_eq_fields {pop1 pop2 : PopulationState n} {j : Fin n}
    (h : pop1.row j = pop2.row j) :
    pop1.susceptible j = pop2.susceptible j ∧ pop1.exposed j = pop2.exposed j ∧
      pop1.infectious j = pop2.infectious j ∧ pop1.recovered j = pop2.recovered j ∧
      pop1.dead j = pop2.dead j ∧ pop1.infectious_at j = pop2.infectious_at j ∧
      pop1.recovered_at j = pop2.recovered_at j := by
  unfold PopulationState.row at h
  injection h with h1 h2 h3 h4 h5 h6 h7
  exact ⟨h1, h2, h3, h4, h5, h6, h7⟩

/-- One completed step preserves the exactly-one-compartment invariant. -/
lemma stepPop_inv (p : DiseaseParameters) (now : ℤ) (pairs : List (Fin n × Fin n))
    (pop : PopulationState n) (rng : RandomStream) (h : popInv pop) :
    popInv (stepPop p now pairs pop rng) := by
  intro j
  rcases inv_cases pop j (h j) with
    ⟨h1, h2, h3, h4, h5⟩ | ⟨h1, h2, h3, h4, h5⟩ | ⟨h1, h2, h3, h4, h5⟩ |
    ⟨h1, h2, h3, h4, h5⟩ | ⟨h1, h2, h3, h4, h5⟩
  · rcases stepPop_S p now pairs pop rng j h1 h2 h3 with hrow | ⟨c1, c2, c3, c4, c5, _⟩
    · obtain ⟨e1, e2, e3, e4, e5, _, _⟩ := row_eq_fields hrow
      unfold exactlyOneAt
      rw [e1, e2, e3, e4, e5, h1, h2, h3, h4, h5]; decide
    · unfold exactlyOneAt
      rw [c1, c2, c3, c4, c5, h3, h4, h5]; decide
  · by_cases hd : dueEI pop now j = true
    · obtain ⟨c1, c2, c3, c4, c5⟩ := stepPop_EI p now pairs pop rng j hd h1 h3
      unfold exactlyOneAt
      rw [c1, c2, c3, c4, c5, h4, h5]; decide
    · rw [Bool.not_eq_true] at hd
      have hI := dueIR_of_not_infectious now pop j h3
      obtain ⟨e1, e2, e3, e4, e5, _, _⟩ :=
        row_eq_fields (stepPop_row_fixed p now pairs pop rng j h1 hd hI)
      unfold exactlyOneAt
      rw [e1, e2, e3, e4, e5, h1, h2, h3, h4, h5]; decide
  · by_cases hd : dueIR pop now j = true
    · obtain ⟨c1, c2, c3, c4, c5⟩ := stepPop_IR p now pairs pop rng j hd h1 h2
      unfold exactlyOneAt
      rw [c1, c2, c3, c4, c5, h4, h5]
      cases bernAt p.deathProbability (rng.skip n) j.val <;> decide
    · rw [Bool.not_eq_true] at hd
      have hE := dueEI_of_not_exposed now pop j h2
      obtain ⟨e1, e2, e3, e4, e5, _, _⟩ :=
        row_eq_fields (stepPop_row_fixed p now pairs pop rng j h1 hE hd)
      unfold exactlyOneAt
      rw [e1, e2, e3, e4, e5, h1, h2, h3, h4, h5]; decide
  · have hE := dueEI_of_not_exposed now pop j h2
    have hI := dueIR_of_not_infectious now pop j h3
    obtain ⟨e1, e2, e3, e4, e5, _, _⟩ :=
      row_eq_fields (stepPop_row_fixed p now pairs pop rng j h1 hE hI)
    unfold exactlyOneAt
    rw [e1, e2, e3, e4, e5, h1, h2, h3, h4, h5]; decide
  · have hE := dueEI_of_not_exposed now pop j h2
    have hI := dueIR_of_not_infectious now pop j h3
    obtain ⟨e1, e2, e3, e4, e5, _, _⟩ :=
      row_eq_fields (stepPop_row_fixed p now pairs pop rng j h1 hE hI)
    unfold exactlyOneAt
    rw [e1, e2, e3, e4, e5, h1, h2, h3, h4, h5]; decide

/-- The bootstrap population satisfies the invariant: every agent starts
susceptible or infectious. -/
lemma initCore_inv (p : DiseaseParameters) (m : ℕ) (rng : RandomStream) :
    popInv (initCore p m rng).1 := by
  intro j
  unfold exactlyOneAt initCore
  dsimp only
  cases bernAt p.initPrevalence rng (2 * j.val) <;> decide

lemma countTrue_eq_sum (f : Fin n → Bool) : countTrue f = ∑ j : Fin n, (f j).toNat := by
  unfold countTrue
  rw [Finset.card_filter]
  refine Finset.sum_congr rfl fun j _ => ?_
  cases f j <;> simp

lemma countTrue_zero (f : Fin n → Bool) (h : ∀ j, f j = false) : countTrue f = 0 := by
  rw [countTrue_eq_sum]
  refine Finset.sum_eq_zero fun j _ => ?_
  rw [h j]; rfl

/-- Conservation: whenever the invariant holds, the five counts sum to the
population size. -/
lemma counts_conserved (pop : PopulationState n) (h : popInv pop) :
    pop.counts.S + pop.counts.E + pop.counts.I + pop.counts.R + pop.counts.D = n := by
  unfold PopulationState.counts
  dsimp only
  rw [countTrue_eq_sum, countTrue_eq_sum, countTrue_eq_sum, countTrue_eq_sum,
    countTrue_eq_sum, ← Finset.sum_add_distrib, ← Finset.sum_add_distrib,
    ← Finset.sum_add_distrib, ← Finset.sum_add_distrib]
  rw [Finset.sum_congr rfl fun j _ => h j]
  simp

end InvariantLemmas

section EngineLemmas

variable {n : ℕ} (cs : ContactSampler n) (e : Engine n)

lemma Engine.step_pop :
    (Engine.step cs e).1.pop = stepPop e.pars e.clock (cs e.clock) e.pop e.rng := rfl

lemma Engine.step_snd :
    (Engine.step cs e).2 = (Engine.step cs e).1.pop.counts := rfl

lemma Engine.step_pars : (Engine.step cs e).1.pars = e.pars := rfl

lemma Engine.step_clock : (Engine.step cs e).1.clock = e.clock + 1 := rfl

lemma Engine.step_inv (h : popInv e.pop) : popInv ((Engine.step cs e).1.pop) := by
  rw [Engine.step_pop]
  exact stepPop_inv e.pars e.clock (cs e.clock) e.pop e.rng h

lemma Engine.iter_inv (k : ℕ) (h : popInv e.pop) :
    popInv ((Engine.iter cs k e).pop) := by
  induction k generalizing e with
  | zero => exact h
  | succ k ih => exact ih (Engine.step cs e).1 (Engine.step_inv cs e h)

lemma runCounts_conserved (k : ℕ) (h : popInv e.pop) :
    ∀ r ∈ Engine.runCounts cs k e, r.S + r.E + r.I + r.R + r.D = n := by
  induction k generalizing e with
  | zero => intro r hr; cases hr
  | succ k ih =>
      intro r hr
      rw [Engine.runCounts] at hr
      rcases List.mem_cons.mp hr with hr1 | hr2
      · rw [hr1, Engine.step_snd]
        exact counts_conserved _ (Engine.step_inv cs e h)
      · exact ih (Engine.step cs e).1 (Engine.step_inv cs e h) r hr2

lemma comp_of_S {pop : PopulationState n} {j : Fin n} (hs : pop.susceptible j = true) :
    pop.comp j = .S := by
  simp [PopulationState.comp, hs]

lemma comp_of_E {pop : PopulationState n} {j : Fin n} (hs : pop.susceptible j = false)
    (he : pop.exposed j = true) : pop.comp j = .E := by
  simp [PopulationState.comp, hs, he]

lemma comp_of_I {pop : PopulationState n} {j : Fin n} (hs : pop.susceptible j = false)
    (he : pop.exposed j = false) (hi : pop.infectious j = true) : pop.comp j = .I := by
  simp [PopulationState.comp, hs, he, hi]

lemma comp_of_R {pop : PopulationState n} {j : Fin n} (hs : pop.susceptible j = false)
    (he : pop.exposed j = false) (hi : pop.infectious j = false)
    (hr : pop.recovered j = true) : pop.comp j = .R := by
  simp [PopulationState.comp, hs, he, hi, hr]

lemma comp_of_D {pop : PopulationState n} {j : Fin n} (hs : pop.susceptible j = false)
    (he : pop.exposed j = false) (hi : pop.infectious j = false)
    (hr : pop.recovered j = false) : pop.comp j = .D := by
  simp [PopulationState.comp, hs, he, hi, hr]

/-- Within one step every agent moves along at most one edge of the state
machine. -/
lemma step_oneHop (h : popInv e.pop) (j : Fin n) :
    oneHop (e.pop.comp j) ((Engine.step cs e).1.pop.comp j) := by
  rw [Engine.step_pop]
  rcases inv_cases e.pop j (h j) with
    ⟨h1, h2, h3, h4, h5⟩ | ⟨h1, h2, h3, h4, h5⟩ | ⟨h1, h2, h3, h4, h5⟩ |
    ⟨h1, h2, h3, h4, h5⟩ | ⟨h1, h2, h3, h4, h5⟩
  · rcases stepPop_S e.pars e.clock (cs e.clock) e.pop e.rng j h1 h2 h3 with
      hrow | ⟨c1, c2, c3, c4, c5, _⟩
    · obtain ⟨e1, e2, e3, e4, e5, _, _⟩ := row_eq_fields hrow
      left
      rw [comp_of_S h1, comp_of_S (by rw [e1]; exact h1)]
    · right; left
      exact ⟨comp_of_S h1, comp_of_E c1 c2⟩
  · by_cases hd : dueEI e.pop e.clock j = true
    · obtain ⟨c1, c2, c3, c4, c5⟩ :=
        stepPop_EI e.pars e.clock (cs e.clock) e.pop e.rng j hd h1 h3
      right; right; left
      exact ⟨comp_of_E h1 h2, comp_of_I c1 c2 c3⟩
    · rw [Bool.not_eq_true] at hd
      obtain ⟨e1, e2, e3, e4, e5, _, _⟩ := row_eq_fields
        (stepPop_row_fixed e.pars e.clock (cs e.clock) e.pop e.rng j h1 hd
          (dueIR_of_not_infectious e.clock e.pop j h3))
      left
      rw [comp_of_E h1 h2, comp_of_E (by rw [e1]; exact h1) (by rw [e2]; exact h2)]
  · by_cases hd : dueIR e.pop e.clock j = true
    · obtain ⟨c1, c2, c3, c4, c5⟩ :=
        stepPop_IR e.pars e.clock (cs e.clock) e.pop e.rng j hd h1 h2
      cases hb : bernAt e.pars.deathProbability (e.rng.skip n) j.val
      · right; right; right; left
        refine ⟨comp_of_I h1 h2 h3, comp_of_R c1 c2 c3 ?_⟩
        rw [c4, hb]; simp
      · right; right; right; right
        refine ⟨comp_of_I h1 h2 h3, comp_of_D c1 c2 c3 ?_⟩
        rw [c4, hb, h4]; simp
    · rw [Bool.not_eq_true] at hd
      obtain ⟨e1, e2, e3, e4, e5, _, _⟩ := row_eq_fields
        (stepPop_row_fixed e.pars e.clock (cs e.clock) e.pop e.rng j h1
          (dueEI_of_not_exposed e.clock e.pop j h2) hd)
      left
      rw [comp_of_I h1 h2 h3, comp_of_I (by rw [e1]; exact h1) (by rw [e2]; exact h2)
        (by rw [e3]; exact h3)]
  · obtain ⟨e1, e2, e3, e4, e5, _, _⟩ := row_eq_fields
      (stepPop_row_fixed e.pars e.clock (cs e.clock) e.pop e.rng j h1
        (dueEI_of_not_exposed e.clock e.pop j h2)
        (dueIR_of_not_infectious e.clock e.pop j h3))
    left
    rw [comp_of_R h1 h2 h3 h4, comp_of_R (by rw [e1]; exact h1) (by rw [e2]; exact h2)
      (by rw [e3]; exact h3) (by rw [e4]; exact h4)]
  · obtain ⟨e1, e2, e3, e4, e5, _, _⟩ := row_eq_fields
      (stepPop_row_fixed e.pars e.clock (cs e.clock) e.pop e.rng j h1
        (dueEI_of_not_exposed e.clock e.pop j h2)
        (dueIR_of_not_infectious e.clock e.pop j h3))
    left
    rw [comp_of_D h1 h2 h3 h4, comp_of_D (by rw [e1]; exact h1) (by rw [e2]; exact h2)
      (by rw [e3]; exact h3) (by rw [e4]; exact h4)]

/-- A recovered or dead agent keeps its entire row across one step. -/
lemma step_row_absorbing (h : popInv e.pop) (j : Fin n)
    (hrd : e.pop.recovered j = true ∨ e.pop.dead j = true) :
    (Engine.step cs e).1.pop.row j = e.pop.row j := by
  rw [Engine.step_pop]
  rcases inv_cases e.pop j (h j) with
    ⟨h1, h2, h3, h4, h5⟩ | ⟨h1, h2, h3, h4, h5⟩ | ⟨h1, h2, h3, h4, h5⟩ |
    ⟨h1, h2, h3, h4, h5⟩ | ⟨h1, h2, h3, h4, h5⟩
  · rcases hrd with h' | h'
    · rw [h4] at h'; cases h'
    · rw [h5] at h'; cases h'
  · rcases hrd with h' | h'
    · rw [h4] at h'; cases h'
    · rw [h5] at h'; cases h'
  · rcases hrd with h' | h'
    · rw [h4] at h'; cases h'
    · rw [h5] at h'; cases h'
  · exact stepPop_row_fixed e.pars e.clock (cs e.clock) e.pop e.rng j h1
      (dueEI_of_not_exposed e.clock e.pop j h2) (dueIR_of_not_infectious e.clock e.pop j h3)
  · exact stepPop_row_fixed e.pars e.clock (cs e.clock) e.pop e.rng j h1
      (dueEI_of_not_exposed e.clock e.pop j h2) (dueIR_of_not_infectious e.clock e.pop j h3)

/-- RECOVERED and DEAD are absorbing across any number of steps. -/
lemma iter_row_absorbing (k : ℕ) (h : popInv e.pop) (j : Fin n)
    (hrd : e.pop.recovered j = true ∨ e.pop.dead j = true) :
    (Engine.iter cs k e).pop.row j = e.pop.row j := by
  induction k generalizing e with
  | zero => rfl
  | succ k ih =>
      have hstep := step_row_absorbing cs e h j hrd
      have hinv' := Engine.step_inv cs e h
      obtain ⟨_, _, _, e4, e5, _, _⟩ := row_eq_fields hstep
      have hrd' : (Engine.step cs e).1.pop.recovered j = true ∨
          (Engine.step cs e).1.pop.dead j = true := by
        rcases hrd with h' | h'
        · left; rw [e4]; exact h'
        · right; rw [e5]; exact h'
      show (Engine.iter cs k (Engine.step cs e).1).pop.row j = e.pop.row j
      rw [ih (Engine.step cs e).1 hinv' hrd', hstep]

end EngineLemmas

section BetaZero

variable {n : ℕ} (p : DiseaseParameters) (now : ℤ)

lemma exposeStep_beta0 (hp : p.transmissionProbability = 0)
    (st : PopulationState n × RandomStream) (pr : Fin n × Fin n) :
    (exposeStep p now st pr).1 = st.1 := by
  unfold exposeStep
  split
  · dsimp only
    have hb : (bernCore p.transmissionProbability st.2).1 = false := by
      unfold bernCore bernVal
      rw [hp]
      dsimp only
      apply decide_eq_false
      have h0 : (0 : ℚ).num = 0 := rfl
      rw [h0, zero_mul]
      exact not_lt.mpr (mul_nonneg (Int.natCast_nonneg _) (Int.natCast_nonneg _))
    rw [hb]
    simp
  · rfl

lemma contacts_beta0 (hp : p.transmissionProbability = 0) (pairs : List (Fin n × Fin n))
    (pop : PopulationState n) (rng : RandomStream) :
    (applyContacts p now pairs pop rng).1 = pop := by
  induction pairs generalizing pop rng with
  | nil => rfl
  | cons pr t ih =>
      rw [applyContacts_cons, ih]
      exact exposeStep_beta0 p now hp (pop, rng) pr

lemma stepPop_beta0 (hp : p.transmissionProbability = 0) (pairs : List (Fin n × Fin n))
    (pop : PopulationState n) (rng : RandomStream) :
    stepPop p now pairs pop rng = (advanceDueTransitions p now pop rng).1 := by
  unfold stepPop
  exact contacts_beta0 p now hp pairs _ _

lemma stepPop_beta0_sus (hp : p.transmissionProbability = 0)
    (pairs : List (Fin n × Fin n)) (pop : PopulationState n) (rng : RandomStream) :
    (stepPop p now pairs pop rng).susceptible = pop.susceptible := by
  rw [stepPop_beta0 p now hp pairs pop rng]
  funext j
  exact advance_sus p now pop rng j

lemma stepPop_beta0_exp (hp : p.transmissionProbability = 0)
    (pairs : List (Fin n × Fin n)) (pop : PopulationState n) (rng : RandomStream)
    (hz : ∀ j, pop.exposed j = false) :
    ∀ j, (stepPop p now pairs pop rng).exposed j = false := by
  intro j
  rw [stepPop_beta0 p now hp pairs pop rng, advance_exp,
    dueEI_of_not_exposed now pop j (hz j)]
  simp [hz j]

/-- With transmission probability 0 no exposure ever happens: along any run
the E count stays 0 (when it starts 0) and the S count never changes. -/
lemma run_beta0 (cs : ContactSampler n) (k : ℕ) (e : Engine n)
    (hp : e.pars.transmissionProbability = 0) (hz : ∀ j, e.pop.exposed j = false) :
    ∀ r ∈ Engine.runCounts cs k e, r.E = 0 ∧ r.S = countTrue e.pop.susceptible := by
  induction k generalizing e with
  | zero => intro r hr; cases hr
  | succ k ih =>
      intro r hr
      rw [Engine.runCounts] at hr
      have hsus : (Engine.step cs e).1.pop.susceptible = e.pop.susceptible := by
        rw [Engine.step_pop]
        exact stepPop_beta0_sus e.pars e.clock hp (cs e.clock) e.pop e.rng
      have hexp : ∀ j, (Engine.step cs e).1.pop.exposed j = false := by
        intro j
        rw [Engine.step_pop]
        exact stepPop_beta0_exp e.pars e.clock hp (cs e.clock) e.pop e.rng hz j
      rcases List.mem_cons.mp hr with hr1 | hr2
      · rw [hr1, Engine.step_snd]
        constructor
        · exact countTrue_zero _ hexp
        · show countTrue (Engine.step cs e).1.pop.susceptible = countTrue e.pop.susceptible
          rw [hsus]
      · have hres := ih (Engine.step cs e).1 hp hexp r hr2
        rwa [hsus] at hres

end BetaZero

section ExponentialMean

lemma integral_id_mul_exp_neg : ∫ x in Set.Ioi (0 : ℝ), x * Real.exp (-x) = 1 := by
  have h2 : Real.Gamma 2 = 1 := by
    rw [show (2 : ℝ) = 1 + 1 by norm_num, Real.Gamma_add_one one_ne_zero,
      Real.Gamma_one, mul_one]
  have h3 := Real.Gamma_eq_integral (s := (2 : ℝ)) (by norm_num)
  rw [h2] at h3
  have hcongr : Set.EqOn (fun x : ℝ => x * Real.exp (-x))
      (fun x : ℝ => Real.exp (-x) * x ^ ((2 : ℝ) - 1)) (Set.Ioi 0) := by
    intro x hx
    have : (2 : ℝ) - 1 = 1 := by norm_num
    simp only [this, Real.rpow_one]
    ring
  rw [MeasureTheory.setIntegral_congr_fun measurableSet_Ioi hcongr]
  exact h3.symm

/-- The mean of the exponential distribution with mean scale `s` is `s`. -/
lemma expMean_eq {s : ℝ} (hs : 0 < s) : expMean s = s := by
  have hb : 0 < s⁻¹ := inv_pos.mpr hs
  have key := MeasureTheory.integral_comp_mul_left_Ioi
    (fun y : ℝ => y * Real.exp (-y)) 0 hb
  have key' : ∫ x in Set.Ioi (0 : ℝ), s⁻¹ * x * Real.exp (-(s⁻¹ * x)) =
      s * ∫ y in Set.Ioi (0 : ℝ), y * Real.exp (-y) := by
    simpa [smul_eq_mul] using key
  unfold expMean
  have hcongr : Set.EqOn (fun x : ℝ => x * expPdf s⁻¹ x)
      (fun x : ℝ => s⁻¹ * x * Real.exp (-(s⁻¹ * x))) (Set.Ioi 0) := by
    intro x hx
    show x * expPdf s⁻¹ x = s⁻¹ * x * Real.exp (-(s⁻¹ * x))
    unfold expPdf
    rw [if_pos (le_of_lt hx)]
    ring
  rw [MeasureTheory.setIntegral_congr_fun measurableSet_Ioi hcongr, key',
    integral_id_mul_exp_neg, mul_one]

end ExponentialMean

/-! ## Part 4: the claims -/

/-- C1: for every agent index i and at every observable boundary (after each
completed step), exactly one of the five compartment flags is true for i, and
for every step the per-step counts satisfy S+E+I+R+D = populationSize. -/
theorem claim_C1_exactly_one_and_conservation :
    ∀ (p : DiseaseParameters) (n : ℕ) (rng : RandomStream) (cs : ContactSampler n)
      (k : ℕ),
      (∀ j, exactlyOneAt ((Engine.iter cs k (Engine.mk0 p n rng)).pop) j) ∧
      ∀ r ∈ Engine.runCounts cs k (Engine.mk0 p n rng),
        r.S + r.E + r.I + r.R + r.D = n := by
  intro p n rng cs k
  have h0 : popInv (Engine.mk0 p n rng).pop := initCore_inv p n rng
  exact ⟨Engine.iter_inv cs _ k h0, runCounts_conserved cs _ k h0⟩

theorem claim_C1_witness :
    exactlyOneAt ((Engine.iter probeCS2 2 (Engine.mk0 defaultParameters 2 probeStream)).pop)
      0 ∧
    ((Engine.step probeCS2 (Engine.mk0 defaultParameters 2 probeStream)).2 ∈
        Engine.runCounts probeCS2 2 (Engine.mk0 defaultParameters 2 probeStream) ∧
      (Engine.step probeCS2 (Engine.mk0 defaultParameters 2 probeStream)).2.S +
          (Engine.step probeCS2 (Engine.mk0 defaultParameters 2 probeStream)).2.E +
          (Engine.step probeCS2 (Engine.mk0 defaultParameters 2 probeStream)).2.I +
          (Engine.step probeCS2 (Engine.mk0 defaultParameters 2 probeStream)).2.R +
          (Engine.step probeCS2 (Engine.mk0 defaultParameters 2 probeStream)).2.D = 2) :=
  ⟨(claim_C1_exactly_one_and_conservation defaultParameters 2 probeStream probeCS2 2).1 0,
   List.mem_cons_self _ _,
   (claim_C1_exactly_one_and_conservation defaultParameters 2 probeStream probeCS2 2).2 _
     (List.mem_cons_self _ _)⟩

/-- C2 counterexample: the claim's container list does not match the source's
`add_states` call: there is no `dead` boolean container, and the numeric
containers are named `infectious_ti` and `recovered_ti`, not `infectious_at`
and `recovered_at`. -/
theorem claim_C2_counterexample :
    seirAddStates ≠ specClaimedStates ∧
    ("dead", StateKind.boolArr) ∉ seirAddStates ∧
    "infectious_at" ∉ seirAddStates.map Prod.fst ∧
    "recovered_at" ∉ seirAddStates.map Prod.fst := by
  decide

/-- C2 amended: the `add_states` call owns four parallel boolean containers
named susceptible, exposed, infectious and recovered (no `dead` container is
declared) plus two parallel numeric containers of scheduled transition times
named `infectious_ti` and `recovered_ti`. -/
theorem claim_C2_amended :
    (seirAddStates.filter (fun x => x.2 == StateKind.boolArr)).map Prod.fst =
      ["susceptible", "exposed", "infectious", "recovered"] ∧
    (seirAddStates.filter (fun x => x.2 == StateKind.floatArr)).map Prod.fst =
      ["infectious_ti", "recovered_ti"] := by
  decide

/-- C3 counterexample: with populationSize 100, transmission probability 0 and
the remaining notebook defaults, a 50-step run need not keep the R and D
counts at 0 nor the I count constant: with the all-zero stream every bootstrap
agent is infectious at time 0 and leaves the infectious compartment at the
first step (here to dead, via the Bernoulli(0.01) death draw). -/
theorem claim_C3_counterexample :
    ¬ (∀ r ∈ Engine.runCounts (fun _ => []) 50 (Engine.mk0 probePars 100 probeStream),
        r.E = 0 ∧ r.R = 0 ∧ r.D = 0 ∧
          r.I = (Engine.mk0 probePars 100 probeStream).pop.counts.I) := by
  decide

/-- C3 amended: for a simulation with populationSize 100 and
transmissionProbability 0, running run(50) leaves the E count equal to 0 and
the S count unchanged from initialization for all 50 steps (no transmission is
possible); the I count may still decrease as bootstrap infectious agents
recover or die. -/
theorem claim_C3_amended :
    ∀ (p : DiseaseParameters) (rng : RandomStream) (cs : ContactSampler 100),
      p.transmissionProbability = 0 →
      ∀ r ∈ Engine.runCounts cs 50 (Engine.mk0 p 100 rng),
        r.E = 0 ∧ r.S = (Engine.mk0 p 100 rng).pop.counts.S := by
  intro p rng cs hp r hr
  exact run_beta0 cs 50 (Engine.mk0 p 100 rng) hp (fun _ => rfl) r hr

theorem claim_C3_amended_witness :
    probePars.transmissionProbability = 0 ∧
    (Engine.step (fun _ => []) (Engine.mk0 probePars 100 probeStream)).2 ∈
      Engine.runCounts (fun _ => []) 50 (Engine.mk0 probePars 100 probeStream) ∧
    ((Engine.step (fun _ => []) (Engine.mk0 probePars 100 probeStream)).2.E = 0 ∧
      (Engine.step (fun _ => []) (Engine.mk0 probePars 100 probeStream)).2.S =
        (Engine.mk0 probePars 100 probeStream).pop.counts.S) :=
  ⟨rfl, List.mem_cons_self _ _,
   claim_C3_amended probePars probeStream _ rfl _ (List.mem_cons_self _ _)⟩

/-- C4: within a single step, exposed-to-infectious transitions are resolved
before infectious-to-recovered/dead transitions and no agent traverses more
than one stage change — every agent moves along at most one edge of the state
machine, and an exposed agent whose timer is due ends the step infectious
(never recovered or dead), even when its recorded recovery timer is also due. -/
theorem claim_C4_one_hop :
    ∀ {n : ℕ} (cs : ContactSampler n) (e : Engine n), popInv e.pop →
      ∀ j, oneHop (e.pop.comp j) ((Engine.step cs e).1.pop.comp j) ∧
        (dueEI e.pop e.clock j = true →
          (Engine.step cs e).1.pop.comp j = Compartment.I) := by
  intro n cs e h j
  refine ⟨step_oneHop cs e h j, ?_⟩
  intro hd
  have hexp : e.pop.exposed j = true := by
    unfold dueEI at hd
    rw [Bool.and_eq_true] at hd
    exact hd.1
  rcases inv_cases e.pop j (h j) with
    ⟨h1, h2, h3, h4, h5⟩ | ⟨h1, h2, h3, h4, h5⟩ | ⟨h1, h2, h3, h4, h5⟩ |
    ⟨h1, h2, h3, h4, h5⟩ | ⟨h1, h2, h3, h4, h5⟩
  · rw [h2] at hexp; cases hexp
  · obtain ⟨c1, c2, c3, _, _⟩ :=
      stepPop_EI e.pars e.clock (cs e.clock) e.pop e.rng j hd h1 h3
    rw [Engine.step_pop]
    exact comp_of_I c1 c2 c3
  · rw [h2] at hexp; cases hexp
  · rw [h2] at hexp; cases hexp
  · rw [h2] at hexp; cases hexp

theorem claim_C4_witness :
    popInv probeEngineE.pop ∧
    (oneHop (probeEngineE.pop.comp 0) ((Engine.step probeCS2 probeEngineE).1.pop.comp 0) ∧
      (dueEI probeEngineE.pop probeEngineE.clock 0 = true →
        (Engine.step probeCS2 probeEngineE).1.pop.comp 0 = Compartment.I)) :=
  ⟨by decide, claim_C4_one_hop probeCS2 probeEngineE (by decide) 0⟩

/-- C5: RECOVERED and DEAD are absorbing: once an agent's recovered or dead
flag is set, its entire row — and hence its compartment — never changes in any
subsequent step. -/
theorem claim_C5_absorbing :
    ∀ {n : ℕ} (cs : ContactSampler n) (e : Engine n), popInv e.pop →
      ∀ j, e.pop.recovered j = true ∨ e.pop.dead j = true →
        ∀ k, (Engine.iter cs k e).pop.row j = e.pop.row j ∧
          (Engine.iter cs k e).pop.comp j = e.pop.comp j := by
  intro n cs e h j hrd k
  have hrow := iter_row_absorbing cs e k h j hrd
  refine ⟨hrow, ?_⟩
  obtain ⟨e1, e2, e3, e4, e5, _, _⟩ := row_eq_fields hrow
  unfold PopulationState.comp
  rw [e1, e2, e3, e4]

theorem claim_C5_witness :
    popInv probeEngineE.pop ∧
    (probeEngineE.pop.recovered 1 = true ∨ probeEngineE.pop.dead 1 = true) ∧
    ((Engine.iter probeCS2 3 probeEngineE).pop.row 1 = probeEngineE.pop.row 1 ∧
      (Engine.iter probeCS2 3 probeEngineE).pop.comp 1 = probeEngineE.pop.comp 1) :=
  ⟨by decide, by decide,
   claim_C5_absorbing probeCS2 probeEngineE (by decide) 1 (by decide) 3⟩

/-- C6: two engines constructed with identical DiseaseParameters, identical
population size and identical seed, driven by identical ContactSampler
outputs, produce identical StepResult sequences for identical run(numSteps)
calls. -/
theorem claim_C6_determinism :
    ∀ (n : ℕ) (p1 p2 : DiseaseParameters) (s1 s2 : ℕ) (cs1 cs2 : ContactSampler n)
      (k : ℕ), p1 = p2 → s1 = s2 → (∀ t, cs1 t = cs2 t) →
      Engine.runCounts cs1 k (Engine.mkSeeded p1 n s1) =
        Engine.runCounts cs2 k (Engine.mkSeeded p2 n s2) := by
  intro n p1 p2 s1 s2 cs1 cs2 k hp hs hcs
  subst hp
  subst hs
  have hc : cs1 = cs2 := funext hcs
  subst hc
  rfl

theorem claim_C6_witness :
    defaultParameters = defaultParameters ∧ (7 : ℕ) = 7 ∧
    (∀ t, probeCS2 t = probeCS2 t) ∧
    Engine.runCounts probeCS2 3 (Engine.mkSeeded defaultParameters 2 7) =
      Engine.runCounts probeCS2 3 (Engine.mkSeeded defaultParameters 2 7) :=
  ⟨rfl, rfl, fun _ => rfl,
   claim_C6_determinism 2 defaultParameters defaultParameters 7 7 probeCS2 probeCS2 3
     rfl rfl fun _ => rfl⟩

/-- C7: markExposed(i, time, scheduler) flips agent i from susceptible to
exposed and stores infectious_at[i] = time + sampleIncubation(), leaving every
other agent's row untouched; it fails with InvalidStateTransition if and only
if agent i is not currently susceptible, and on that failure no updated state
is produced, so the caller's population state is unchanged. -/
theorem claim_C7_markExposed :
    ∀ {n : ℕ} (p : DiseaseParameters) (i : Fin n) (now : ℤ)
      (pop : PopulationState n) (rng : RandomStream),
      (pop.susceptible i = false ↔
        markExposed p i now pop rng = .error .invalidStateTransition) ∧
      (pop.susceptible i = true →
        markExposed p i now pop rng = .ok (markExposedCore p i now pop rng) ∧
        (markExposedCore p i now pop rng).1.susceptible i = false ∧
        (markExposedCore p i now pop rng).1.exposed i = true ∧
        (markExposedCore p i now pop rng).1.infectious_at i =
          now + (sampleIncubation p rng).1 ∧
        ∀ k, k ≠ i → (markExposedCore p i now pop rng).1.row k = pop.row k) := by
  intro n p i now pop rng
  constructor
  · constructor
    · intro hf
      unfold markExposed
      rw [if_neg]
      rw [hf]
      simp
    · intro herr
      cases hsus : pop.susceptible i
      · rfl
      · unfold markExposed at herr
        rw [if_pos hsus] at herr
        cases herr
  · intro ht
    refine ⟨by unfold markExposed; rw [if_pos ht], ?_, ?_, ?_, ?_⟩
    · simp [markExposedCore]
    · simp [markExposedCore]
    · simp [markExposedCore]
    · intro k hk
      unfold markExposedCore PopulationState.row
      simp [Function.update_noteq hk]

theorem claim_C7_witness :
    (initCore defaultParameters 2 probeStreamHigh).1.susceptible 0 = true ∧
    markExposed defaultParameters 0 0 (initCore defaultParameters 2 probeStreamHigh).1
        probeStreamHigh =
      .ok (markExposedCore defaultParameters 0 0
        (initCore defaultParameters 2 probeStreamHigh).1 probeStreamHigh) ∧
    (markExposedCore defaultParameters 0 0 (initCore defaultParameters 2 probeStreamHigh).1
        probeStreamHigh).1.exposed 0 = true :=
  ⟨by decide,
   ((claim_C7_markExposed defaultParameters 0 0 (initCore defaultParameters 2
       probeStreamHigh).1 probeStreamHigh).2 (by decide)).1,
   ((claim_C7_markExposed defaultParameters 0 0 (initCore defaultParameters 2
       probeStreamHigh).1 probeStreamHigh).2 (by decide)).2.2.1⟩

/-- C8: initialize(size, initPrevalence, randomStream) sets every agent
susceptible except a Bernoulli(initPrevalence)-selected subset that is set
directly to infectious (so the exposed count is 0 at time 0) with recovered_at
scheduled, and fails with InvalidParameter if size ≤ 0. -/
theorem claim_C8_init :
    ∀ (p : DiseaseParameters) (size : ℤ) (rng : RandomStream),
      (size ≤ 0 → initializePop p size rng = .error .invalidParameter) ∧
      (0 < size → 0 ≤ p.initPrevalence → p.initPrevalence ≤ 1 →
        0 < p.infectiousScale →
        initializePop p size rng = .ok (initCore p size.toNat rng) ∧
        (∀ j : Fin size.toNat,
          (initCore p size.toNat rng).1.exposed j = false ∧
          (initCore p size.toNat rng).1.recovered j = false ∧
          (initCore p size.toNat rng).1.dead j = false ∧
          (initCore p size.toNat rng).1.susceptible j =
            !bernAt p.initPrevalence rng (2 * j.val) ∧
          (initCore p size.toNat rng).1.infectious j =
            bernAt p.initPrevalence rng (2 * j.val) ∧
          ((initCore p size.toNat rng).1.infectious j = true →
            (initCore p size.toNat rng).1.recovered_at j =
              0 + expAt p.infectiousScale rng (2 * j.val + 1))) ∧
        (initCore p size.toNat rng).1.counts.E = 0) := by
  intro p size rng
  constructor
  · intro hle
    unfold initializePop
    rw [if_pos hle]
  · intro hpos h1 h2 h3
    refine ⟨?_, ?_, ?_⟩
    · unfold initializePop
      rw [if_neg (not_le.mpr hpos), if_pos ⟨h1, h2, h3⟩]
    · intro j
      refine ⟨rfl, rfl, rfl, rfl, rfl, ?_⟩
      intro hi
      have hb : bernAt p.initPrevalence rng (2 * j.val) = true := hi
      show (if bernAt p.initPrevalence rng (2 * j.val) then
          0 + expAt p.infectiousScale rng (2 * j.val + 1) else 0) = _
      rw [if_pos hb]
    · exact countTrue_zero _ fun j => rfl

theorem claim_C8_witness :
    (0 : ℤ) < 2 ∧ 0 ≤ defaultParameters.initPrevalence ∧
    defaultParameters.initPrevalence ≤ 1 ∧ 0 < defaultParameters.infectiousScale ∧
    initializePop defaultParameters 2 probeStream =
      .ok (initCore defaultParameters (2 : ℤ).toNat probeStream) ∧
    (initCore defaultParameters (2 : ℤ).toNat probeStream).1.counts.E = 0 :=
  ⟨by decide, by decide, by decide, by decide,
   ((claim_C8_init defaultParameters 2 probeStream).2 (by decide) (by decide) (by decide)
     (by decide)).1,
   ((claim_C8_init defaultParameters 2 probeStream).2 (by decide) (by decide) (by decide)
     (by decide)).2.2⟩

/-- C9: with the incubation-duration distribution Exponential(scale 3) and the
infectious-duration distribution Exponential(scale 5) of the notebook's
defaults, the expected time from exposure to recovery or death — the sum of
the two exponential means, each computed as the expectation of the identity
under the exponential density — is 8. -/
theorem claim_C9_expected_duration :
    expMean ((ParDist.scaleOf seirDefaultPars.dur_exp : ℚ) : ℝ) +
      expMean ((ParDist.scaleOf seirDefaultPars.dur_inf : ℚ) : ℝ) = 8 := by
  have h1 : (ParDist.scaleOf seirDefaultPars.dur_exp : ℚ) = 3 := rfl
  have h2 : (ParDist.scaleOf seirDefaultPars.dur_inf : ℚ) = 5 := rfl
  rw [h1, h2]
  push_cast
  rw [expMean_eq (by norm_num : (0 : ℝ) < 3), expMean_eq (by norm_num : (0 : ℝ) < 5)]
  norm_num

/-- C10: the notebook's seir model defaults are initial prevalence
Bernoulli(0.01), beta 0.1, incubation duration Exponential(3), infectious
duration Exponential(5) and death probability Bernoulli(0.01); caller-supplied
pars override these defaults because update_pars is applied after
default_pars, and absent keys keep the defaults. -/
theorem claim_C10_default_pars :
    (seirConstructPars {} = seirDefaultPars ∧
      seirDefaultPars.init_prev = ParDist.bernoulli (1/100) ∧
      seirDefaultPars.beta = 1/10 ∧
      seirDefaultPars.dur_exp = ParDist.expon 3 ∧
      seirDefaultPars.dur_inf = ParDist.expon 5 ∧
      seirDefaultPars.p_death = ParDist.bernoulli (1/100)) ∧
    ∀ u : SeirParsUpdate,
      (∀ d, u.init_prev = some d → (seirConstructPars u).init_prev = d) ∧
      (∀ b, u.beta = some b → (seirConstructPars u).beta = b) ∧
      (∀ d, u.dur_exp = some d → (seirConstructPars u).dur_exp = d) ∧
      (∀ d, u.dur_inf = some d → (seirConstructPars u).dur_inf = d) ∧
      (∀ d, u.p_death = some d → (seirConstructPars u).p_death = d) ∧
      (u.beta = none → (seirConstructPars u).beta = seirDefaultPars.beta) := by
  refine ⟨⟨rfl, rfl, rfl, rfl, rfl, rfl⟩, ?_⟩
  intro u
  refine ⟨?_, ?_, ?_, ?_, ?_, ?_⟩
  · intro d hd; simp [seirConstructPars, updatePars, hd]
  · intro b hb; simp [seirConstructPars, updatePars, hb]
  · intro d hd; simp [seirConstructPars, updatePars, hd]
  · intro d hd; simp [seirConstructPars, updatePars, hd]
  · intro d hd; simp [seirConstructPars, updatePars, hd]
  · intro hb; simp [seirConstructPars, updatePars, hb]

theorem claim_C10_witness :
    ({ beta := some 2 } : SeirParsUpdate).beta = some 2 ∧
    (seirConstructPars { beta := some 2 }).beta = 2 ∧
    ({} : SeirParsUpdate).beta = none ∧
    (seirConstructPars {}).beta = seirDefaultPars.beta :=
  ⟨rfl, (claim_C10_default_pars.2 { beta := some 2 }).2.1 2 rfl, rfl,
   (claim_C10_default_pars.2 {}).2.2.2.2.2 rfl⟩

end StarsimSpec
